import Mathlib

/-!
Shallow embedding of the usage governor and chat-routing logic of
`src/server.js` (the variant with the lifetime spend limit, i.e. the code
containing `USAGE_LIMITS.LIFETIME_SPEND_LIMIT`, `resetUsageCounters`,
`canMakeOpenAIRequest`, `updateUsageStats` and the validated
`POST /api/chat` handler).

Conventions of the embedding:

* Dollar amounts are represented exactly in micro-dollars (units of 10^-6
  dollars) as natural numbers.  Every monetary constant of the program
  (0.002, 4.50, 4.0) is an exact multiple of 10^-6, and the per-call cost
  `(tokensUsed / 1000) * COST_PER_1K_TOKENS` equals `tokensUsed * 2`
  micro-dollars exactly, with no rounding, so the scaled integer
  semantics coincides with exact real arithmetic on these values.
* JavaScript `Date` values are represented by their calendar fields:
  `getMonth()` and `getDate()` are the `month` and `date` projections.
  The code never consults the year, so the `year` field exists only to
  express calendar ordering in specification-level statements.
* Message strings are processed as lists of characters; `toLowerCase`,
  `includes` and `trim` are modelled for the ASCII fragment, which covers
  every phrase the program tests for.
* The single mutable `usageStats` object is threaded explicitly: every
  function that mutates it returns the updated record.
* The outbound HTTP call to the OpenAI API is a parameter
  `upstream : Option (String × Nat)`: `some (content, totalTokens)` for a
  well-formed successful reply, `none` for any failure (network error,
  non-2xx status, malformed payload).  The `upstreamCalled` field of the
  produced result records whether the `axios.post` call was reached.
-/

/-- Calendar fields of a JavaScript `Date`: `month` is `getMonth()`
(0 to 11) and `date` is `getDate()` (day of month, 1 to 31). -/
structure JsDate where
  year : Nat
  month : Nat
  date : Nat
deriving DecidableEq, Repr

/-- The immutable `USAGE_LIMITS` configuration object.  Monetary fields
are in micro-dollars. -/
structure UsageLimits where
  DAILY_REQUESTS : Nat
  MONTHLY_REQUESTS : Nat
  MAX_TOKENS_PER_REQUEST : Nat
  COST_PER_1K_TOKENS : Nat
  MAX_MONTHLY_COST : Nat
  LIFETIME_SPEND_LIMIT : Nat
deriving DecidableEq, Repr

/-- The `USAGE_LIMITS` constant of `src/server.js`:
50 daily requests, 1000 monthly requests, 500 max tokens,
$0.002 per 1k tokens, $4.50 monthly cost cap, $4.00 lifetime cap. -/
def USAGE_LIMITS : UsageLimits where
  DAILY_REQUESTS := 50
  MONTHLY_REQUESTS := 1000
  MAX_TOKENS_PER_REQUEST := 500
  COST_PER_1K_TOKENS := 2000
  MAX_MONTHLY_COST := 4500000
  LIFETIME_SPEND_LIMIT := 4000000

/-- The mutable `usageStats` record.  `totalCost` is the monthly cost
estimate and `lifetimeSpend` the lifetime cost estimate, both in
micro-dollars. -/
structure UsageStats where
  dailyRequests : Nat
  monthlyRequests : Nat
  totalCost : Nat
  lifetimeSpend : Nat
  lastReset : JsDate
  openaiDisabled : Bool
deriving DecidableEq, Repr

/-- The initial value of `usageStats`: all counters zero,
`openaiDisabled` false, `lastReset` the process start time. -/
def initialUsageStats (startTime : JsDate) : UsageStats where
  dailyRequests := 0
  monthlyRequests := 0
  totalCost := 0
  lifetimeSpend := 0
  lastReset := startTime
  openaiDisabled := false

/-- `resetUsageCounters()`: zeroes `dailyRequests` when `getDate()` or
`getMonth()` of `now` differs from `lastReset`; additionally zeroes
`monthlyRequests` and `totalCost` when `getMonth()` differs; always sets
`lastReset` to `now`.  The year is never consulted.  The record below is
the field-by-field net effect of the sequential mutations in the source. -/
def resetUsageCounters (s : UsageStats) (now : JsDate) : UsageStats where
  dailyRequests :=
    if now.date ≠ s.lastReset.date ∨ now.month ≠ s.lastReset.month then 0
    else s.dailyRequests
  monthlyRequests :=
    if now.month ≠ s.lastReset.month then 0 else s.monthlyRequests
  totalCost :=
    if now.month ≠ s.lastReset.month then 0 else s.totalCost
  lifetimeSpend := s.lifetimeSpend
  lastReset := now
  openaiDisabled := s.openaiDisabled

/-- `canMakeOpenAIRequest()`: runs the reset step, then checks the
lifetime, daily, monthly and projected-monthly-cost ceilings in order.
Reaching the lifetime ceiling latches `openaiDisabled := true` (the
source guards the assignment with `if (!usageStats.openaiDisabled)`,
which only suppresses the duplicate log line; the resulting state is the
same).  `COST_PER_1K_TOKENS * 0.5` is `COST_PER_1K_TOKENS / 2`
micro-dollars, exact because the constant is even.  Returns the verdict
together with the mutated state. -/
def canMakeOpenAIRequest (s : UsageStats) (now : JsDate) : Bool × UsageStats :=
  if (resetUsageCounters s now).lifetimeSpend ≥ USAGE_LIMITS.LIFETIME_SPEND_LIMIT then
    (false, { resetUsageCounters s now with openaiDisabled := true })
  else if (resetUsageCounters s now).dailyRequests ≥ USAGE_LIMITS.DAILY_REQUESTS then
    (false, resetUsageCounters s now)
  else if (resetUsageCounters s now).monthlyRequests ≥ USAGE_LIMITS.MONTHLY_REQUESTS then
    (false, resetUsageCounters s now)
  else if (resetUsageCounters s now).totalCost + USAGE_LIMITS.COST_PER_1K_TOKENS / 2
      ≥ USAGE_LIMITS.MAX_MONTHLY_COST then
    (false, resetUsageCounters s now)
  else
    (true, resetUsageCounters s now)

/-- `updateUsageStats(tokensUsed)`: increments both request counters,
adds `(tokensUsed / 1000) * COST_PER_1K_TOKENS` dollars — exactly
`tokensUsed * COST_PER_1K_TOKENS / 1000 = 2 * tokensUsed` micro-dollars,
the natural-number division is exact — to `totalCost` and
`lifetimeSpend`, and latches `openaiDisabled := true` when the updated
`lifetimeSpend` meets or exceeds the lifetime ceiling. -/
def updateUsageStats (s : UsageStats) (tokensUsed : Nat) : UsageStats where
  dailyRequests := s.dailyRequests + 1
  monthlyRequests := s.monthlyRequests + 1
  totalCost := s.totalCost + tokensUsed * USAGE_LIMITS.COST_PER_1K_TOKENS / 1000
  lifetimeSpend := s.lifetimeSpend + tokensUsed * USAGE_LIMITS.COST_PER_1K_TOKENS / 1000
  lastReset := s.lastReset
  openaiDisabled :=
    s.openaiDisabled ||
      decide (s.lifetimeSpend + tokensUsed * USAGE_LIMITS.COST_PER_1K_TOKENS / 1000
        ≥ USAGE_LIMITS.LIFETIME_SPEND_LIMIT)

/-- One invocation of a Governor operation, with arbitrary argument:
the three functions through which `usageStats` is ever mutated. -/
inductive GovStep : UsageStats → UsageStats → Prop
  | reset (s : UsageStats) (now : JsDate) : GovStep s (resetUsageCounters s now)
  | check (s : UsageStats) (now : JsDate) : GovStep s (canMakeOpenAIRequest s now).2
  | record (s : UsageStats) (tokensUsed : Nat) : GovStep s (updateUsageStats s tokensUsed)

/-- ASCII case folding of one character, as `toLowerCase` acts on the
ASCII range. -/
def lowerChar (c : Char) : Char :=
  if c.toNat ≥ 65 && c.toNat ≤ 90 then Char.ofNat (c.toNat + 32) else c

/-- `message.toLowerCase()` on the ASCII fragment, as a character list. -/
def toLowerStr (m : String) : List Char := m.data.map lowerChar

/-- Whether the first list is an initial segment of the second. -/
def leadsWith : List Char → List Char → Bool
  | [], _ => true
  | _ :: _, [] => false
  | a :: as, b :: bs => a == b && leadsWith as bs

/-- Whether `needle` occurs contiguously inside `hay`. -/
def hasSub (needle : List Char) : List Char → Bool
  | [] => needle.isEmpty
  | c :: rest => leadsWith needle (c :: rest) || hasSub needle rest

/-- JavaScript `hay.includes(needle)`: substring containment. -/
def includes (hay : List Char) (needle : String) : Bool :=
  hasSub needle.data hay

/-- The `FALLBACK_RESPONSES` knowledge base (one field per category). -/
structure FallbackResponses where
  skills : String
  experience : String
  projects : String
  contact : String
  default : String
  limitReached : String
  noInfo : String
deriving DecidableEq, Repr

/-- The canned answers of `src/server.js` (lifetime-limit variant),
verbatim. -/
def FALLBACK_RESPONSES : FallbackResponses where
  skills := "Lance Hebert has expertise in:\n\nLanguages: JavaScript, Ruby\nFrameworks: Ruby on Rails, React, HTML5, CSS3, Bootstrap\nDatabase Management: PostgreSQL, SQLite\nCMS & APIs: Contentful (Headless CMS), REST\nPerformance & Accessibility: Lighthouse, WCAG 2.1 AA\nTesting & Workflow: Git, Postman\nDeployment & Cloud: Heroku, Netlify, Railway, AWS S3, CloudFront\nTools: Foundation CSS, Bootstrap\n\nWhat specific skills would you like to know more about?"
  experience := "Lance Hebert has extensive professional experience:\n\nVOGLIO Marketing (2022-2025)\n- Web Developer II (May-Jul 2025): WCAG 2.1 AA accessibility expert, Contentful CMS workflows, mentored 2 developers, improved PageSpeed scores by 40 points\n- Web Developer (Aug 2022-May 2025): Built custom websites for $700M+ revenue clients, A/B testing, cross-functional collaboration, technical support\n\nHealthcare Background (2015-2020)\n- Physical Therapist at multiple healthcare organizations including Assured Home Healthcare, Signature Healthcare, Harvard Partners Health, ATI Physical Therapy\n- Extensive experience in home health, geriatric care, clinical management, and multi-disciplinary collaboration\n- Doctor of Physical Therapy from University of Texas Medical Branch (2012-2015)\n\nEducation: Flatiron School Software Engineer Certification (2021-2022)\n\nWhat would you like to know about his experience?"
  projects := "Lance Hebert has worked on several projects:\n\nAI-Powered Portfolio Chatbot (Current)\n- Built an intelligent chatbot using OpenAI GPT-3.5-turbo\n- Implemented cost-effective architecture with Railway deployment\n- Features anti-hallucination measures and usage tracking\n- Personalized to Lance\x27s professional information\n\nAd Skipping Browser Extension for YouTube\n- Engineered Chrome extension using JavaScript and Chrome Extensions API\n- Published to Chrome Web Store with over 6000+ impressions and 21 active users\n- Features 15× ad speed-up and playback controls\n\nBootcamp Projects:\n- Physical Therapy Exercise Injury Prevention App: Ruby/PostgreSQL with charts and responsive design\n- Dungeons and Dragons Character Builder: React with authentication and randomization\n- Podcast Recommending App: Spotify API integration with React Bootstrap\n\nWhat project would you like to learn more about?"
  contact := "You can connect with Lance through:\n\n- Email: LSUHEBERT@gmail.com\n- Phone: 281-703-1477\n- LinkedIn: linkedin.com/in/Lance-Hebert\n- GitHub: github.com/lancehebert\n- Website: www.lance-hebert.com\n\nHe\x27s always excited to discuss new opportunities!"
  default := "Hi! I\x27m ChadGPT, Lance\x27s AI assistant. I can help you learn about his professional background! You can ask me about:\n\n- Experience & Work History\n- Technical Skills & Technologies\n- Projects & Portfolio\n- Contact Information\n- Education & Background\n- Interests & Passions (including gaming, fitness, and ice hockey)\n\nWhat would you like to know about Lance?"
  limitReached := "I\x27m currently experiencing high usage and need to conserve resources. I can still help you with information about Lance using my built-in knowledge! You can ask me about:\n\n- Experience & Work History\n- Technical Skills & Technologies\n- Projects & Portfolio\n- Contact Information\n- Education & Background\n- Interests & Passions (including gaming, fitness, and ice hockey)\n\nWhat would you like to know about Lance?"
  noInfo := "I don\x27t have specific information about that topic in my knowledge base. I can help you with information about Lance\x27s:\n\n- Experience & Work History\n- Technical Skills & Technologies\n- Projects & Portfolio\n- Contact Information\n- Education & Background\n- Interests & Passions (including gaming, fitness, and ice hockey)\n\nWhat would you like to know about Lance?"

/-- Category selection over the lowercased message: the if/else chain
that appears (three times, identically) in the chat handler, testing
experience/work, then skills/technologies, then projects/portfolio,
then contact/email/reach, else the default answer. -/
def fallbackFor (lower : List Char) : String :=
  if includes lower "experience" || includes lower "work" then
    FALLBACK_RESPONSES.experience
  else if includes lower "skills" || includes lower "technologies" then
    FALLBACK_RESPONSES.skills
  else if includes lower "projects" || includes lower "portfolio" then
    FALLBACK_RESPONSES.projects
  else if includes lower "contact" || includes lower "email" || includes lower "reach" then
    FALLBACK_RESPONSES.contact
  else
    FALLBACK_RESPONSES.default

/-- The `needsOpenAI` trigger-phrase test of the fallback-mode router. -/
def needsOpenAI (lower : List Char) : Bool :=
  includes lower "more detail" ||
  includes lower "explain more" ||
  includes lower "tell me more" ||
  includes lower "elaborate" ||
  includes lower "specific" ||
  includes lower "detailed" ||
  includes lower "in depth" ||
  includes lower "thorough" ||
  includes lower "comprehensive"

/-- The inline negative-acknowledgement test guarding the clarification
branch of the fallback-mode router. -/
def isNegativeAck (lower : List Char) : Bool :=
  includes lower "no" ||
  includes lower "not really" ||
  includes lower "didn\x27t answer" ||
  includes lower "didnt answer" ||
  includes lower "that didn\x27t help" ||
  includes lower "that didnt help"

/-- Follow-up question appended to a canned answer on the static
default path. -/
def followUpQuestion : String :=
  "\n\nDid that answer your question, or would you like me to investigate further with more detailed information?"

/-- Suffix appended when a usage limit blocked the upstream call. -/
def atUsageLimitSuffix : String :=
  "\n\nI\x27m currently at my usage limit, but I can still help with the information above! Feel free to ask specific questions about Lance\x27s background."

/-- Suffix appended when the upstream call failed for any other reason. -/
def troubleAccessSuffix : String :=
  "\n\nI\x27m having trouble accessing my detailed response system, but I can still help with the information above!"

/-- Suffix appended when the lifetime spend limit has latched. -/
def lifetimeLimitSuffix : String :=
  "\n\nI\x27ve reached my lifetime usage limit and can no longer provide detailed AI responses. However, I can still help with the information above! Feel free to ask specific questions about Lance\x27s background."

/-- Suffix appended when no API key is configured. -/
def conservingResourcesSuffix : String :=
  "\n\nI\x27m currently conserving resources, but I can still help with the information above! Feel free to ask specific questions about Lance\x27s background."

/-- The clarification prompt listing example sub-topics. -/
def clarificationResponse : String :=
  "I\x27d be happy to help you find more specific information! What exactly would you like to know about Lance? For example:\n\n- More details about his work at VOGLIO Marketing?\n- Specific technical skills or technologies?\n- Information about his projects?\n- His approach to accessibility and performance?\n- His mentoring and leadership experience?\n\nJust let me know what interests you most!"

/-- Failure modes of `callOpenAI`: the thrown error messages the handler
distinguishes. -/
inductive CallError where
  | keyMissing
  | usageLimit
  | upstreamFailed
deriving DecidableEq, Repr

/-- Result of `callOpenAI`, together with the mutated usage state and
whether the `axios.post` call was reached. -/
structure CallOutcome where
  result : Except CallError String
  stats : UsageStats
  upstreamCalled : Bool

/-- `callOpenAI(message)`: throws if no key is configured, re-checks
`canMakeOpenAIRequest` (throwing "Usage limit reached" on denial, with
the reset/latch side effects kept), then performs the HTTP call; on a
well-formed success it records the reported `total_tokens` via
`updateUsageStats` and returns the completion text. -/
def callOpenAI (key : Bool) (upstream : Option (String × Nat))
    (s : UsageStats) (now : JsDate) : CallOutcome :=
  if key = false then
    { result := .error .keyMissing, stats := s, upstreamCalled := false }
  else
    match canMakeOpenAIRequest s now with
    | (false, s1) => { result := .error .usageLimit, stats := s1, upstreamCalled := false }
    | (true, s1) =>
      match upstream with
      | none =>
        { result := .error .upstreamFailed, stats := s1, upstreamCalled := true }
      | some (content, totalTokens) =>
        { result := .ok content, stats := updateUsageStats s1 totalTokens, upstreamCalled := true }

/-- Observable outcome of one `POST /api/chat` request: HTTP status,
the `success` flag and `response`/`note` strings of the JSON body,
the usage state after the request, and whether the upstream HTTP call
was reached. -/
structure ChatResult where
  status : Nat
  success : Bool
  response : String
  note : String
  stats : UsageStats
  upstreamCalled : Bool
deriving DecidableEq, Repr

/-- The trailing `else` block of the denial handling in the
fallback-mode router: lifetime-latch explanation if `openaiDisabled`,
otherwise "not configured" when no key, otherwise the usage-limit
explanation. -/
def deniedResponse (base : String) (key : Bool) (s : UsageStats) : ChatResult :=
  if s.openaiDisabled then
    { status := 200, success := true, response := base ++ lifetimeLimitSuffix,
      note := "Using fallback response (lifetime spend limit reached)",
      stats := s, upstreamCalled := false }
  else if key = false then
    { status := 200, success := true, response := base ++ conservingResourcesSuffix,
      note := "Using fallback response (OpenAI not configured)",
      stats := s, upstreamCalled := false }
  else
    { status := 200, success := true, response := base ++ atUsageLimitSuffix,
      note := "Using fallback response (usage limit reached)",
      stats := s, upstreamCalled := false }

/-- The fallback-mode block of the chat handler (the outer `else`):
picks a canned answer by category; with no trigger phrase appends the
follow-up question; with a trigger phrase it attempts the upstream path,
asking for clarification first when the message contains a
negative-acknowledgement substring, and degrading on denial or failure.
The `OPENAI_API_KEY && canMakeOpenAIRequest() && !usageStats.openaiDisabled`
guard is modelled with its JavaScript evaluation order, so the
permission check (and its side effects) runs only when a key is set, and
`openaiDisabled` is read from the state the check produced. -/
def fallbackModeRouter (message : String) (key : Bool)
    (upstream : Option (String × Nat)) (s : UsageStats) (now : JsDate) : ChatResult :=
  let lower := toLowerStr message
  let base := fallbackFor lower
  if needsOpenAI lower = false then
    { status := 200, success := true, response := base ++ followUpQuestion,
      note := "Using fallback response (default mode)",
      stats := s, upstreamCalled := false }
  else
    if key then
      match canMakeOpenAIRequest s now with
      | (true, s1) =>
        if s1.openaiDisabled = false then
          if isNegativeAck lower then
            { status := 200, success := true, response := clarificationResponse,
              note := "Asking for clarification before using OpenAI",
              stats := s1, upstreamCalled := false }
          else
            let call := callOpenAI key upstream s1 now
            match call.result with
            | .ok content =>
              { status := 200, success := true, response := content,
                note := "Using OpenAI GPT-3.5-turbo (detailed response)",
                stats := call.stats, upstreamCalled := call.upstreamCalled }
            | .error .usageLimit =>
              { status := 200, success := true, response := base ++ atUsageLimitSuffix,
                note := "Using fallback response (usage limit reached)",
                stats := call.stats, upstreamCalled := call.upstreamCalled }
            | .error _ =>
              { status := 200, success := true, response := base ++ troubleAccessSuffix,
                note := "Using fallback response (OpenAI failed)",
                stats := call.stats, upstreamCalled := call.upstreamCalled }
        else
          deniedResponse base key s1
      | (false, s1) => deniedResponse base key s1
    else
      deniedResponse base key s

/-- Body of the `POST /api/chat` handler after validation.  In default
mode (`lifetimeSpend` below the ceiling, `openaiDisabled` unset, key
present, permission granted) every message is forwarded upstream; the
`catch` keeps the category fallback with the usage-limit or generic
suffix.  Otherwise the fallback-mode router runs, on the state left by
the guard evaluation (the permission check runs inside the guard only
after the first two conjuncts hold). -/
def chatHandler (message : String) (key : Bool)
    (upstream : Option (String × Nat)) (s : UsageStats) (now : JsDate) : ChatResult :=
  let lower := toLowerStr message
  let useFallbackMode : Bool :=
    decide (s.lifetimeSpend ≥ USAGE_LIMITS.LIFETIME_SPEND_LIMIT) || s.openaiDisabled
  if useFallbackMode = false ∧ key = true then
    match canMakeOpenAIRequest s now with
    | (true, s1) =>
      let call := callOpenAI key upstream s1 now
      match call.result with
      | .ok content =>
        { status := 200, success := true, response := content,
          note := "Using OpenAI GPT-3.5-turbo (default mode)",
          stats := call.stats, upstreamCalled := call.upstreamCalled }
      | .error .usageLimit =>
        { status := 200, success := true, response := fallbackFor lower ++ atUsageLimitSuffix,
          note := "Using fallback response (usage limit reached)",
          stats := call.stats, upstreamCalled := call.upstreamCalled }
      | .error _ =>
        { status := 200, success := true, response := fallbackFor lower ++ troubleAccessSuffix,
          note := "Using fallback response (OpenAI failed)",
          stats := call.stats, upstreamCalled := call.upstreamCalled }
    | (false, s1) => fallbackModeRouter message key upstream s1 now
  else
    fallbackModeRouter message key upstream s now

/-- Whitespace test of JavaScript string trimming (ASCII fragment). -/
def isWs (c : Char) : Bool :=
  c = ' ' || c = '\t' || c = '\n' || c = '\r'

/-- JavaScript `trim()`: strip leading and trailing whitespace. -/
def jsTrim (m : String) : String :=
  String.mk (((m.data.dropWhile isWs).reverse.dropWhile isWs).reverse)

/-- HTML-entity escaping of one character, as the `escape()` sanitizer
of the validation chain performs it. -/
def escapeChar (c : Char) : String :=
  if c = '&' then "&amp;"
  else if c = '"' then "&quot;"
  else if c = Char.ofNat 39 then "&#x27;"
  else if c = '<' then "&lt;"
  else if c = '>' then "&gt;"
  else if c = '/' then "&#x2F;"
  else if c = '\\' then "&#x5C;"
  else if c = Char.ofNat 96 then "&#96;"
  else String.singleton c

/-- The `escape()` sanitizer applied to a whole string. -/
def escapeStr (m : String) : String :=
  String.join (m.data.map escapeChar)

/-- The full `POST /api/chat` endpoint: the express-validator chain
`body("message").trim().isLength(min 1, max 1000).escape()` rejects a
missing message, or one whose trimmed length is outside 1..1000, with a
400 before the handler body runs; otherwise the handler receives the
trimmed, escaped message.  (The handler's later `if (!message)` check is
unreachable: a validated message is a non-empty string.) -/
def chatEndpoint (messageField : Option String) (key : Bool)
    (upstream : Option (String × Nat)) (s : UsageStats) (now : JsDate) : ChatResult :=
  match messageField with
  | none =>
    { status := 400, success := false, response := "", note := "",
      stats := s, upstreamCalled := false }
  | some raw =>
    if (jsTrim raw).data.length < 1 ∨ (jsTrim raw).data.length > 1000 then
      { status := 400, success := false, response := "", note := "",
        stats := s, upstreamCalled := false }
    else
      chatHandler (escapeStr (jsTrim raw)) key upstream s now

/-- Specification-level predicate: `now` falls on a later calendar day
than `past` (strictly later in the year/month/day lexicographic order). -/
def specLaterCalendarDay (past now : JsDate) : Bool :=
  decide (past.year < now.year ∨
    (past.year = now.year ∧ past.month < now.month) ∨
    (past.year = now.year ∧ past.month = now.month ∧ past.date < now.date))

/-- Specification-level predicate: `now` falls in a later calendar month
than `past`. -/
def specLaterCalendarMonth (past now : JsDate) : Bool :=
  decide (past.year < now.year ∨ (past.year = now.year ∧ past.month < now.month))

/-- A fixed sample timestamp (January 1, 2025) used in concrete
witnesses. -/
def sampleDate : JsDate := ⟨2025, 0, 1⟩

/-- A usage state whose lifetime spend sits exactly at the ceiling while
the latch flag is still unset (the state `updateUsageStats` is entered
with when the crossing call happens). -/
def atCeilingStats : UsageStats where
  dailyRequests := 3
  monthlyRequests := 7
  totalCost := 100
  lifetimeSpend := 4000000
  lastReset := sampleDate
  openaiDisabled := false

/-- A usage state dated March 15, 2025 with nonzero counters, used to
exhibit the year-insensitivity of the reset comparison. -/
def marchStats : UsageStats where
  dailyRequests := 5
  monthlyRequests := 40
  totalCost := 123456
  lifetimeSpend := 200000
  lastReset := ⟨2025, 2, 15⟩
  openaiDisabled := false

theorem reset_reset (s : UsageStats) (now : JsDate) :
    resetUsageCounters (resetUsageCounters s now) now = resetUsageCounters s now := by
  simp [resetUsageCounters]

theorem canMake_of_reset (s : UsageStats) (now : JsDate) :
    canMakeOpenAIRequest (resetUsageCounters s now) now = canMakeOpenAIRequest s now := by
  unfold canMakeOpenAIRequest
  rw [reset_reset]

theorem canMake_true_snd (s : UsageStats) (now : JsDate)
    (h : (canMakeOpenAIRequest s now).1 = true) :
    (canMakeOpenAIRequest s now).2 = resetUsageCounters s now := by
  unfold canMakeOpenAIRequest at h ⊢
  split_ifs at h ⊢
  rfl

theorem canMake_snd_lifetimeSpend (s : UsageStats) (now : JsDate) :
    (canMakeOpenAIRequest s now).2.lifetimeSpend = s.lifetimeSpend := by
  unfold canMakeOpenAIRequest
  split_ifs <;> rfl

theorem canMake_false_of_limit (s : UsageStats) (now : JsDate)
    (h : s.lifetimeSpend ≥ USAGE_LIMITS.LIFETIME_SPEND_LIMIT) :
    (canMakeOpenAIRequest s now).1 = false ∧
    (canMakeOpenAIRequest s now).2.openaiDisabled = true := by
  have h' : (resetUsageCounters s now).lifetimeSpend ≥ USAGE_LIMITS.LIFETIME_SPEND_LIMIT := h
  unfold canMakeOpenAIRequest
  rw [if_pos h']
  exact ⟨rfl, rfl⟩

theorem govStep_lifetimeSpend_mono {s t : UsageStats} (h : GovStep s t) :
    s.lifetimeSpend ≤ t.lifetimeSpend := by
  cases h with
  | reset now => exact le_of_eq rfl
  | check now =>
    unfold canMakeOpenAIRequest
    split_ifs <;> exact le_of_eq rfl
  | record tokensUsed => exact Nat.le_add_right _ _

theorem govStep_disabled_mono {s t : UsageStats} (h : GovStep s t)
    (hd : s.openaiDisabled = true) : t.openaiDisabled = true := by
  cases h with
  | reset now => exact hd
  | check now =>
    unfold canMakeOpenAIRequest
    split_ifs <;> simp [resetUsageCounters, hd]
  | record tokensUsed => simp [updateUsageStats, hd]

theorem govStep_latch_inv {s t : UsageStats} (h : GovStep s t)
    (hinv : USAGE_LIMITS.LIFETIME_SPEND_LIMIT ≤ s.lifetimeSpend → s.openaiDisabled = true)
    (ht : USAGE_LIMITS.LIFETIME_SPEND_LIMIT ≤ t.lifetimeSpend) :
    t.openaiDisabled = true := by
  cases h with
  | reset now => exact hinv ht
  | check now =>
    have hs : USAGE_LIMITS.LIFETIME_SPEND_LIMIT ≤ s.lifetimeSpend := by
      rw [canMake_snd_lifetimeSpend] at ht
      exact ht
    exact (canMake_false_of_limit s now hs).2
  | record tokensUsed =>
    simp only [updateUsageStats] at ht ⊢
    simp only [Bool.or_eq_true, decide_eq_true_eq, ge_iff_le]
    exact Or.inr ht

theorem govReach_lifetimeSpend_mono {s t : UsageStats}
    (h : Relation.ReflTransGen GovStep s t) : s.lifetimeSpend ≤ t.lifetimeSpend := by
  induction h with
  | refl => exact le_refl _
  | tail _ hstep ih => exact ih.trans (govStep_lifetimeSpend_mono hstep)

theorem govReach_disabled_mono {s t : UsageStats}
    (h : Relation.ReflTransGen GovStep s t)
    (hd : s.openaiDisabled = true) : t.openaiDisabled = true := by
  induction h with
  | refl => exact hd
  | tail _ hstep ih => exact govStep_disabled_mono hstep ih

theorem govReach_latch_inv {s t : UsageStats}
    (h : Relation.ReflTransGen GovStep s t)
    (hinv : USAGE_LIMITS.LIFETIME_SPEND_LIMIT ≤ s.lifetimeSpend → s.openaiDisabled = true) :
    USAGE_LIMITS.LIFETIME_SPEND_LIMIT ≤ t.lifetimeSpend → t.openaiDisabled = true := by
  induction h with
  | refl => exact hinv
  | tail _ hstep ih => exact fun ht => govStep_latch_inv hstep ih ht

/-- C1: in any state reachable from the initial `usageStats` through the
Governor operations, once `lifetimeSpend` has reached
`USAGE_LIMITS.LIFETIME_SPEND_LIMIT` the latch `openaiDisabled` is true,
and in every state reachable from there through further
`resetUsageCounters` / `canMakeOpenAIRequest` / `updateUsageStats`
(tokensUsed arbitrary, hence in particular nonnegative) calls the latch
stays true, the lifetime spend stays at or above the ceiling, and every
`canMakeOpenAIRequest` call returns false regardless of the daily and
monthly counters. -/
theorem lifetime_latch_permanent (start : JsDate) (s : UsageStats)
    (hreach : Relation.ReflTransGen GovStep (initialUsageStats start) s)
    (hlim : USAGE_LIMITS.LIFETIME_SPEND_LIMIT ≤ s.lifetimeSpend) :
    s.openaiDisabled = true ∧
    ∀ s', Relation.ReflTransGen GovStep s s' →
      s'.openaiDisabled = true ∧
      USAGE_LIMITS.LIFETIME_SPEND_LIMIT ≤ s'.lifetimeSpend ∧
      ∀ now, (canMakeOpenAIRequest s' now).1 = false := by
  have hinv0 : USAGE_LIMITS.LIFETIME_SPEND_LIMIT ≤ (initialUsageStats start).lifetimeSpend →
      (initialUsageStats start).openaiDisabled = true := by
    intro h
    simp only [initialUsageStats, USAGE_LIMITS] at h
    omega
  have hd : s.openaiDisabled = true := govReach_latch_inv hreach hinv0 hlim
  refine ⟨hd, fun s' hs' => ?_⟩
  have hd' := govReach_disabled_mono hs' hd
  have hl' := le_trans hlim (govReach_lifetimeSpend_mono hs')
  exact ⟨hd', hl', fun now => (canMake_false_of_limit s' now hl').1⟩

/-- Witness for C1: after a single `updateUsageStats` of 2,000,000 tokens
from the initial state the lifetime spend is exactly $4.00; the theorem
yields the latch and the permanent denial at that state. -/
theorem lifetime_latch_permanent_witness :
    (updateUsageStats (initialUsageStats sampleDate) 2000000).openaiDisabled = true ∧
    (canMakeOpenAIRequest (updateUsageStats (initialUsageStats sampleDate) 2000000) sampleDate).1 = false := by
  have h := lifetime_latch_permanent sampleDate
    (updateUsageStats (initialUsageStats sampleDate) 2000000)
    (Relation.ReflTransGen.single (GovStep.record _ 2000000))
    (by decide)
  exact ⟨h.1, (h.2 _ Relation.ReflTransGen.refl).2.2 sampleDate⟩

/-- C2 counterexample: starting from a record whose lifetime spend
already sits at the ceiling with the latch still unset, `recordUsage 0`
flips `openaiDisabled` from false to true, so a field other than the
two counters and the two cost accumulators changes, contrary to the
claim that no other field of the usage record changes. -/
theorem updateUsageStats_changes_latch_cex :
    atCeilingStats.openaiDisabled = false ∧
    (updateUsageStats atCeilingStats 0).openaiDisabled = true := by
  decide

/-- C2 (amended): `updateUsageStats tokensUsed` increments
`dailyRequests` and `monthlyRequests` by exactly one and adds exactly
`tokensUsed * COST_PER_1K_TOKENS / 1000` micro-dollars (the exact value
of `tokensUsed/1000 * costPer1kTokens`, equal to `2 * tokensUsed`, no
rounding) to both `totalCost` and `lifetimeSpend`; `lastReset` is
unchanged, and no other field changes except `openaiDisabled`, which is
set to true exactly when it was already true or the updated lifetime
spend meets or exceeds the lifetime ceiling. -/
theorem updateUsageStats_effect (s : UsageStats) (tokensUsed : Nat) :
    (updateUsageStats s tokensUsed).dailyRequests = s.dailyRequests + 1 ∧
    (updateUsageStats s tokensUsed).monthlyRequests = s.monthlyRequests + 1 ∧
    (updateUsageStats s tokensUsed).totalCost
      = s.totalCost + tokensUsed * USAGE_LIMITS.COST_PER_1K_TOKENS / 1000 ∧
    (updateUsageStats s tokensUsed).lifetimeSpend
      = s.lifetimeSpend + tokensUsed * USAGE_LIMITS.COST_PER_1K_TOKENS / 1000 ∧
    tokensUsed * USAGE_LIMITS.COST_PER_1K_TOKENS / 1000 = 2 * tokensUsed ∧
    (updateUsageStats s tokensUsed).lastReset = s.lastReset ∧
    (updateUsageStats s tokensUsed).openaiDisabled
      = (s.openaiDisabled ||
         decide (s.lifetimeSpend + tokensUsed * USAGE_LIMITS.COST_PER_1K_TOKENS / 1000
           ≥ USAGE_LIMITS.LIFETIME_SPEND_LIMIT)) := by
  refine ⟨rfl, rfl, rfl, rfl, ?_, rfl, rfl⟩
  show tokensUsed * 2000 / 1000 = 2 * tokensUsed
  omega

/-- C3: when the lifetime ceiling has not been reached,
`canMakeOpenAIRequest` returns false exactly when, after the reset step,
the daily counter has reached the daily ceiling, or the monthly counter
has reached the monthly ceiling, or the monthly cost estimate plus the
half-call projection `COST_PER_1K_TOKENS * 0.5` has reached the monthly
cost ceiling; in every other case it returns true. -/
theorem canMakeOpenAIRequest_spec (s : UsageStats) (now : JsDate)
    (h : s.lifetimeSpend < USAGE_LIMITS.LIFETIME_SPEND_LIMIT) :
    ((canMakeOpenAIRequest s now).1 = false ↔
      ((resetUsageCounters s now).dailyRequests ≥ USAGE_LIMITS.DAILY_REQUESTS ∨
       (resetUsageCounters s now).monthlyRequests ≥ USAGE_LIMITS.MONTHLY_REQUESTS ∨
       (resetUsageCounters s now).totalCost + USAGE_LIMITS.COST_PER_1K_TOKENS / 2
         ≥ USAGE_LIMITS.MAX_MONTHLY_COST)) := by
  have hne : ¬((resetUsageCounters s now).lifetimeSpend ≥ USAGE_LIMITS.LIFETIME_SPEND_LIMIT) :=
    not_le.mpr h
  unfold canMakeOpenAIRequest
  rw [if_neg hne]
  split_ifs with h1 h2 h3 <;> simp [*]

/-- Witness for C3 at the fresh initial state: no ceiling is hit, and
the permission verdict is accordingly true. -/
theorem canMakeOpenAIRequest_spec_witness :
    ((canMakeOpenAIRequest (initialUsageStats sampleDate) sampleDate).1 = false ↔
      ((resetUsageCounters (initialUsageStats sampleDate) sampleDate).dailyRequests
         ≥ USAGE_LIMITS.DAILY_REQUESTS ∨
       (resetUsageCounters (initialUsageStats sampleDate) sampleDate).monthlyRequests
         ≥ USAGE_LIMITS.MONTHLY_REQUESTS ∨
       (resetUsageCounters (initialUsageStats sampleDate) sampleDate).totalCost
         + USAGE_LIMITS.COST_PER_1K_TOKENS / 2 ≥ USAGE_LIMITS.MAX_MONTHLY_COST)) :=
  canMakeOpenAIRequest_spec (initialUsageStats sampleDate) sampleDate (by decide)

/-- C4 counterexample: March 15, 2026 falls on a later calendar day (and
in a later calendar month) than the recorded reset time March 15, 2025,
yet `resetUsageCounters` zeroes neither the daily nor the monthly
counters nor the monthly cost, because it compares only `getDate()` and
`getMonth()` and never the year. -/
theorem reset_ignores_year_cex :
    specLaterCalendarDay marchStats.lastReset ⟨2026, 2, 15⟩ = true ∧
    specLaterCalendarMonth marchStats.lastReset ⟨2026, 2, 15⟩ = true ∧
    (resetUsageCounters marchStats ⟨2026, 2, 15⟩).dailyRequests = 5 ∧
    (resetUsageCounters marchStats ⟨2026, 2, 15⟩).monthlyRequests = 40 ∧
    (resetUsageCounters marchStats ⟨2026, 2, 15⟩).totalCost = 123456 := by
  decide

/-- C4 (amended): `resetUsageCounters` compares only the day-of-month
and month number to `lastReset`, ignoring the year: it zeroes
`dailyRequests` whenever `getDate()` or `getMonth()` differ, zeroes
`monthlyRequests` and `totalCost` whenever `getMonth()` differs, never
changes `lifetimeSpend` (or the latch), and sets `lastReset` to `now` on
every invocation. -/
theorem resetUsageCounters_amended (s : UsageStats) (now : JsDate)
    (hd : now.date ≠ s.lastReset.date ∨ now.month ≠ s.lastReset.month) :
    (resetUsageCounters s now).dailyRequests = 0 ∧
    (now.month ≠ s.lastReset.month →
      (resetUsageCounters s now).monthlyRequests = 0 ∧
      (resetUsageCounters s now).totalCost = 0) ∧
    (resetUsageCounters s now).lifetimeSpend = s.lifetimeSpend ∧
    (resetUsageCounters s now).openaiDisabled = s.openaiDisabled ∧
    (resetUsageCounters s now).lastReset = now := by
  refine ⟨?_, fun hm => ⟨?_, ?_⟩, rfl, rfl, rfl⟩
  · simp only [resetUsageCounters]
    rw [if_pos hd]
  · simp only [resetUsageCounters]
    rw [if_pos hm]
  · simp only [resetUsageCounters]
    rw [if_pos hm]

/-- Witness for C4 (amended) at a concrete day-and-month change:
April 16 after a March 15 reset zeroes all three counters and preserves
the lifetime spend. -/
theorem resetUsageCounters_amended_witness :
    (resetUsageCounters marchStats ⟨2025, 3, 16⟩).dailyRequests = 0 ∧
    (resetUsageCounters marchStats ⟨2025, 3, 16⟩).monthlyRequests = 0 ∧
    (resetUsageCounters marchStats ⟨2025, 3, 16⟩).totalCost = 0 ∧
    (resetUsageCounters marchStats ⟨2025, 3, 16⟩).lifetimeSpend = 200000 := by
  have h := resetUsageCounters_amended marchStats ⟨2025, 3, 16⟩ (by decide)
  exact ⟨h.1, (h.2.1 (by decide)).1, (h.2.1 (by decide)).2, h.2.2.1⟩

theorem deniedResponse_no_upstream (base : String) (key : Bool) (s : UsageStats) :
    (deniedResponse base key s).status = 200 ∧
    (deniedResponse base key s).success = true ∧
    (deniedResponse base key s).upstreamCalled = false := by
  unfold deniedResponse
  split_ifs <;> exact ⟨rfl, rfl, rfl⟩

theorem router_default_path (m : String) (key : Bool) (up : Option (String × Nat))
    (s : UsageStats) (now : JsDate) (hneeds : needsOpenAI (toLowerStr m) = false) :
    fallbackModeRouter m key up s now =
      { status := 200, success := true,
        response := fallbackFor (toLowerStr m) ++ followUpQuestion,
        note := "Using fallback response (default mode)",
        stats := s, upstreamCalled := false } := by
  simp only [fallbackModeRouter]
  rw [if_pos hneeds]

theorem callOpenAI_none_eq (key : Bool) (s : UsageStats) (now : JsDate) :
    callOpenAI key none s now =
      (if key = false then
        { result := .error .keyMissing, stats := s, upstreamCalled := false }
      else if (canMakeOpenAIRequest s now).1 = true then
        { result := .error .upstreamFailed, stats := (canMakeOpenAIRequest s now).2,
          upstreamCalled := true }
      else
        { result := .error .usageLimit, stats := (canMakeOpenAIRequest s now).2,
          upstreamCalled := false }) := by
  unfold callOpenAI
  split
  · rfl
  · rcases hcm : canMakeOpenAIRequest s now with ⟨b, s1⟩
    cases b <;> rfl

theorem router_none_fields (m : String) (key : Bool) (s : UsageStats) (now : JsDate) :
    (fallbackModeRouter m key none s now).status = 200 ∧
    (fallbackModeRouter m key none s now).success = true ∧
    ((fallbackModeRouter m key none s now).upstreamCalled = true →
      (fallbackModeRouter m key none s now).response
        = fallbackFor (toLowerStr m) ++ troubleAccessSuffix ∧
      (fallbackModeRouter m key none s now).note = "Using fallback response (OpenAI failed)") := by
  simp only [fallbackModeRouter, callOpenAI_none_eq]
  split
  · exact ⟨rfl, rfl, fun h => Bool.noConfusion h⟩
  · split
    · rename_i hk
      subst hk
      split
      · rename_i s1 heq
        have h1 : (canMakeOpenAIRequest s now).1 = true := by rw [heq]
        have hs1 : s1 = resetUsageCounters s now := by
          rw [← canMake_true_snd s now h1, heq]
        have hcan1 : (canMakeOpenAIRequest s1 now).1 = true := by
          rw [hs1, canMake_of_reset, heq]
        split
        · split
          · exact ⟨rfl, rfl, fun h => Bool.noConfusion h⟩
          · exact ⟨rfl, rfl, fun _ => ⟨rfl, rfl⟩⟩
        · obtain ⟨h1, h2, h3⟩ := deniedResponse_no_upstream (fallbackFor (toLowerStr m)) true s1
          refine ⟨h1, h2, fun h => ?_⟩
          rw [h3] at h
          exact Bool.noConfusion h
      · rename_i s1 heq
        obtain ⟨h1, h2, h3⟩ := deniedResponse_no_upstream (fallbackFor (toLowerStr m)) true s1
        refine ⟨h1, h2, fun h => ?_⟩
        rw [h3] at h
        exact Bool.noConfusion h
    · obtain ⟨h1, h2, h3⟩ := deniedResponse_no_upstream (fallbackFor (toLowerStr m)) key s
      refine ⟨h1, h2, fun h => ?_⟩
      rw [h3] at h
      exact Bool.noConfusion h

/-- C5: a chat request whose `message` field is missing, or whose
trimmed message is empty or longer than 1000 characters, is rejected
with status 400 by the validation chain; neither the Governor nor the
upstream call runs, and the usage record is unchanged. -/
theorem invalid_message_rejected (raw : Option String) (key : Bool)
    (up : Option (String × Nat)) (s : UsageStats) (now : JsDate)
    (h : raw = none ∨ ∃ msg, raw = some msg ∧
      ((jsTrim msg).data.length < 1 ∨ (jsTrim msg).data.length > 1000)) :
    (chatEndpoint raw key up s now).status = 400 ∧
    (chatEndpoint raw key up s now).stats = s ∧
    (chatEndpoint raw key up s now).upstreamCalled = false := by
  rcases h with h | ⟨msg, rfl, hlen⟩
  · subst h
    exact ⟨rfl, rfl, rfl⟩
  · simp only [chatEndpoint]
    rw [if_pos hlen]
    exact ⟨rfl, rfl, rfl⟩

/-- Witness for C5 on a whitespace-only message. -/
theorem invalid_message_rejected_witness :
    (chatEndpoint (some "   ") true none (initialUsageStats sampleDate) sampleDate).status = 400 ∧
    (chatEndpoint (some "   ") true none (initialUsageStats sampleDate) sampleDate).stats
      = initialUsageStats sampleDate ∧
    (chatEndpoint (some "   ") true none (initialUsageStats sampleDate) sampleDate).upstreamCalled
      = false :=
  invalid_message_rejected (some "   ") true none (initialUsageStats sampleDate) sampleDate
    (Or.inr ⟨"   ", rfl, Or.inl (by decide)⟩)

set_option maxRecDepth 100000 in
/-- C6 counterexample: with an API key configured and a fresh usage
state, the message "Tell me about your experience" (which contains no
trigger phrase) is forwarded upstream by the default-mode branch: the
note is the OpenAI default-mode note, not the fallback note, and the
upstream call is made — contradicting the claim that no upstream call
is made for trigger-free messages. -/
theorem default_mode_calls_upstream_cex :
    (chatHandler "Tell me about your experience" true
      (some ("A detailed model answer", 120)) (initialUsageStats sampleDate) sampleDate).note
      = "Using OpenAI GPT-3.5-turbo (default mode)" ∧
    (chatHandler "Tell me about your experience" true
      (some ("A detailed model answer", 120)) (initialUsageStats sampleDate) sampleDate).upstreamCalled
      = true := by
  decide

/-- C6 (amended): whenever the default-mode upstream branch is not taken
(the process is in fallback mode, or no API key is configured, or the
Governor denies the request), a message containing no trigger phrase
receives the canned answer for its category with the appended follow-up
invitation, the note is "Using fallback response (default mode)", and no
upstream call is made. -/
theorem fallback_default_path (m : String) (key : Bool) (up : Option (String × Nat))
    (s : UsageStats) (now : JsDate)
    (hguard : (decide (s.lifetimeSpend ≥ USAGE_LIMITS.LIFETIME_SPEND_LIMIT)
        || s.openaiDisabled) = true
      ∨ key = false ∨ (canMakeOpenAIRequest s now).1 = false)
    (hneeds : needsOpenAI (toLowerStr m) = false) :
    (chatHandler m key up s now).response = fallbackFor (toLowerStr m) ++ followUpQuestion ∧
    (chatHandler m key up s now).note = "Using fallback response (default mode)" ∧
    (chatHandler m key up s now).status = 200 ∧
    (chatHandler m key up s now).upstreamCalled = false := by
  by_cases hc : (decide (s.lifetimeSpend ≥ USAGE_LIMITS.LIFETIME_SPEND_LIMIT)
      || s.openaiDisabled) = false ∧ key = true
  · rcases hguard with h1 | h2 | h3
    · exact absurd h1 (by simp [hc.1])
    · exact absurd hc.2 (by simp [h2])
    · rcases hcm : canMakeOpenAIRequest s now with ⟨b, s2⟩
      rw [hcm] at h3
      simp only at h3
      subst h3
      simp only [chatHandler, if_pos hc, hcm]
      rw [router_default_path m key up s2 now hneeds]
      exact ⟨rfl, rfl, rfl, rfl⟩
  · simp only [chatHandler, if_neg hc]
    rw [router_default_path m key up s now hneeds]
    exact ⟨rfl, rfl, rfl, rfl⟩

set_option maxRecDepth 100000 in
/-- Witness for C6 (amended): with no API key configured, the
trigger-free experience question gets the canned experience answer plus
the follow-up invitation on the static default path. -/
theorem fallback_default_path_witness :
    (chatHandler "Tell me about your experience" false none
        (initialUsageStats sampleDate) sampleDate).response
      = fallbackFor (toLowerStr "Tell me about your experience") ++ followUpQuestion ∧
    fallbackFor (toLowerStr "Tell me about your experience") = FALLBACK_RESPONSES.experience ∧
    (chatHandler "Tell me about your experience" false none
        (initialUsageStats sampleDate) sampleDate).note
      = "Using fallback response (default mode)" ∧
    (chatHandler "Tell me about your experience" false none
        (initialUsageStats sampleDate) sampleDate).upstreamCalled = false := by
  have h := fallback_default_path "Tell me about your experience" false none
    (initialUsageStats sampleDate) sampleDate (Or.inr (Or.inl rfl)) (by decide)
  exact ⟨h.1, by decide, h.2.1, h.2.2.2⟩

/-- C7 counterexample: the bare message "no" with the API key configured
and a fresh usage state (upstream permitted) is forwarded to the
upstream API by the default-mode branch: the upstream call happens and
token usage is recorded, contradicting the claim that the clarification
prompt is returned with no upstream call. -/
theorem bare_no_upstream_cex :
    (chatHandler "no" true (some ("model text", 100))
      (initialUsageStats sampleDate) sampleDate).upstreamCalled = true ∧
    (chatHandler "no" true (some ("model text", 100))
      (initialUsageStats sampleDate) sampleDate).stats.dailyRequests = 1 ∧
    (chatHandler "no" true (some ("model text", 100))
      (initialUsageStats sampleDate) sampleDate).response = "model text" ∧
    (chatHandler "no" true (some ("model text", 100))
      (initialUsageStats sampleDate) sampleDate).note
      = "Using OpenAI GPT-3.5-turbo (default mode)" := by
  decide

/-- C7 (amended): when the upstream call is permitted (API key
configured, lifetime ceiling not reached, latch unset, Governor
grants), the handler forwards every message — including a bare negative
acknowledgement such as "no" — to the upstream API in default mode,
returns the upstream text, and records the token usage.  The
clarification branch lives only in the fallback-mode router, whose
guard (`canMakeOpenAIRequest` true and latch unset while fallback mode
is active) cannot hold when upstream is actually permitted. -/
theorem bare_no_goes_upstream (m : String) (c : String) (t : Nat)
    (s : UsageStats) (now : JsDate)
    (hspend : s.lifetimeSpend < USAGE_LIMITS.LIFETIME_SPEND_LIMIT)
    (hdis : s.openaiDisabled = false)
    (hcan : (canMakeOpenAIRequest s now).1 = true) :
    (chatHandler m true (some (c, t)) s now).response = c ∧
    (chatHandler m true (some (c, t)) s now).note
      = "Using OpenAI GPT-3.5-turbo (default mode)" ∧
    (chatHandler m true (some (c, t)) s now).upstreamCalled = true ∧
    (chatHandler m true (some (c, t)) s now).stats
      = updateUsageStats (resetUsageCounters s now) t := by
  have hguard : (decide (s.lifetimeSpend ≥ USAGE_LIMITS.LIFETIME_SPEND_LIMIT)
      || s.openaiDisabled) = false ∧ (true : Bool) = true := by
    constructor
    · simp [hdis, not_le.mpr hspend]
    · rfl
  have hsplit : canMakeOpenAIRequest s now = (true, resetUsageCounters s now) :=
    Prod.ext hcan (canMake_true_snd s now hcan)
  have hcall : callOpenAI true (some (c, t)) (resetUsageCounters s now) now =
      { result := .ok c, stats := updateUsageStats (resetUsageCounters s now) t,
        upstreamCalled := true } := by
    unfold callOpenAI
    rw [if_neg (by simp), canMake_of_reset, hsplit]
  simp only [chatHandler, hsplit, hcall]
  rw [if_pos (show (decide (s.lifetimeSpend ≥ USAGE_LIMITS.LIFETIME_SPEND_LIMIT)
      || s.openaiDisabled) = false ∧ True from ⟨hguard.1, trivial⟩)]
  exact ⟨rfl, rfl, rfl, rfl⟩

/-- Witness for C7 (amended) at the fresh initial state. -/
theorem bare_no_goes_upstream_witness :
    (chatHandler "no" true (some ("an upstream reply", 50))
        (initialUsageStats sampleDate) sampleDate).response = "an upstream reply" ∧
    (chatHandler "no" true (some ("an upstream reply", 50))
        (initialUsageStats sampleDate) sampleDate).upstreamCalled = true :=
  have h := bare_no_goes_upstream "no" "an upstream reply" 50
    (initialUsageStats sampleDate) sampleDate (by decide) rfl (by decide)
  ⟨h.1, h.2.2.1⟩

/-- C8: whenever the upstream call is attempted and fails (the upstream
parameter is `none`, covering network errors, non-2xx replies and
malformed payloads), the endpoint still answers 200 with `success`
true; when the upstream call was actually reached, the response is the
category canned answer with the appended apology and the note is the
upstream-failed fallback note.  The failure is never surfaced as an
error to the caller. -/
theorem upstream_failure_degrades (m : String) (key : Bool) (s : UsageStats) (now : JsDate) :
    (chatHandler m key none s now).status = 200 ∧
    (chatHandler m key none s now).success = true ∧
    ((chatHandler m key none s now).upstreamCalled = true →
      (chatHandler m key none s now).response
        = fallbackFor (toLowerStr m) ++ troubleAccessSuffix ∧
      (chatHandler m key none s now).note = "Using fallback response (OpenAI failed)") := by
  simp only [chatHandler, callOpenAI_none_eq]
  split
  · rename_i hg
    obtain ⟨hg1, hg2⟩ := hg
    subst hg2
    split
    · rename_i s1 heq
      have h1 : (canMakeOpenAIRequest s now).1 = true := by rw [heq]
      have hs1 : s1 = resetUsageCounters s now := by
        rw [← canMake_true_snd s now h1, heq]
      have hcan1 : (canMakeOpenAIRequest s1 now).1 = true := by
        rw [hs1, canMake_of_reset, heq]
      rw [if_neg (by simp : ¬((true : Bool) = false)), if_pos hcan1]
      exact ⟨rfl, rfl, fun _ => ⟨rfl, rfl⟩⟩
    · rename_i s1 heq
      exact router_none_fields m true s1 now
  · exact router_none_fields m key s now

/-- Witness for C8: a fresh state with a key, where the upstream call is
reached and fails; the caller still sees 200/success with the canned
answer and apology. -/
theorem upstream_failure_degrades_witness :
    (chatHandler "hello" true none (initialUsageStats sampleDate) sampleDate).status = 200 ∧
    (chatHandler "hello" true none (initialUsageStats sampleDate) sampleDate).success = true ∧
    (chatHandler "hello" true none (initialUsageStats sampleDate) sampleDate).response
      = fallbackFor (toLowerStr "hello") ++ troubleAccessSuffix ∧
    (chatHandler "hello" true none (initialUsageStats sampleDate) sampleDate).note
      = "Using fallback response (OpenAI failed)" := by
  have h := upstream_failure_degrades "hello" true (initialUsageStats sampleDate) sampleDate
  have hu := h.2.2 (by decide)
  exact ⟨h.1, h.2.1, hu.1, hu.2⟩

/-- C9: the category selection tests the lowercased message in the
fixed priority order experience/work, skills/technologies,
projects/portfolio, contact/email/reach, default; in particular a
message containing both "experience" and "contact" selects the
experience canned answer because that test runs first. -/
theorem category_priority_experience (m : String)
    (h1 : includes (toLowerStr m) "experience" = true)
    (_h2 : includes (toLowerStr m) "contact" = true) :
    fallbackFor (toLowerStr m) = FALLBACK_RESPONSES.experience := by
  unfold fallbackFor
  rw [if_pos]
  rw [h1]
  simp

/-- Witness for C9 on a message mentioning both categories. -/
theorem category_priority_experience_witness :
    fallbackFor (toLowerStr "What is your experience and how do I contact you?")
      = FALLBACK_RESPONSES.experience :=
  category_priority_experience "What is your experience and how do I contact you?"
    (by decide) (by decide)

/-- C10: in the fallback-mode router, the negative-acknowledgement test
is substring containment on the lowercased message: any message with a
trigger phrase that also contains "no" anywhere (including inside words
such as "knowledge"), with the key configured, the Governor granting,
and the latch unset, yields the clarification prompt; the upstream API
is not called and no usage is recorded (only the reset step ran). -/
theorem negack_substring_clarification (m : String) (up : Option (String × Nat))
    (s : UsageStats) (now : JsDate)
    (hneeds : needsOpenAI (toLowerStr m) = true)
    (hno : includes (toLowerStr m) "no" = true)
    (hcan : (canMakeOpenAIRequest s now).1 = true)
    (hdis : s.openaiDisabled = false) :
    (fallbackModeRouter m true up s now).response = clarificationResponse ∧
    (fallbackModeRouter m true up s now).note
      = "Asking for clarification before using OpenAI" ∧
    (fallbackModeRouter m true up s now).upstreamCalled = false ∧
    (fallbackModeRouter m true up s now).stats = resetUsageCounters s now := by
  have hsplit : canMakeOpenAIRequest s now = (true, resetUsageCounters s now) :=
    Prod.ext hcan (canMake_true_snd s now hcan)
  have hdis1 : (resetUsageCounters s now).openaiDisabled = false := hdis
  have hneg : isNegativeAck (toLowerStr m) = true := by
    unfold isNegativeAck
    rw [hno]
    simp
  simp only [fallbackModeRouter, hsplit, hneeds, hneg, hdis1]
  exact ⟨rfl, rfl, rfl, rfl⟩

/-- Witness for C10: "tell me more about your knowledge" has the trigger
phrase "tell me more", and "knowledge" contains "no" as a substring, so
the fresh-state fallback router answers with the clarification prompt
and no upstream call. -/
theorem negack_substring_clarification_witness :
    (fallbackModeRouter "tell me more about your knowledge" true none
        (initialUsageStats sampleDate) sampleDate).response = clarificationResponse ∧
    (fallbackModeRouter "tell me more about your knowledge" true none
        (initialUsageStats sampleDate) sampleDate).note
      = "Asking for clarification before using OpenAI" ∧
    (fallbackModeRouter "tell me more about your knowledge" true none
        (initialUsageStats sampleDate) sampleDate).upstreamCalled = false :=
  have h := negack_substring_clarification "tell me more about your knowledge" none
    (initialUsageStats sampleDate) sampleDate (by decide) (by decide) (by decide) rfl
  ⟨h.1, h.2.1, h.2.2.1⟩

